import Mathlib

/-!
Verification development for the Control4 amplifier integration
(custom_components/control4_amplifier).

The embedding covers:
* the wire-value codecs used by `coordinator.py` (Python `f"{n:02d}"`
  formatting, `hex(n)[2:]` rendering, `int()` truncation) — floats are
  idealised as exact rationals;
* the coordinator command builders `async_select_input`, `async_set_volume`,
  `async_set_bass` together with their validation, returning either the list
  of command bodies handed to `async_send_command` or the logged error;
* the response logic of `async_send_command` under a deterministic-time model
  of `asyncio.wait_for`/`asyncio.sleep`;
* the per-zone state machine of `player_state.py`
  (`Control4ZoneState`, `Control4StateManager`);
* the zone media-player operations of `media_player.py`
  (`async_mute_volume`, `async_turn_off`, `async_turn_on`,
  `async_select_source`), modelled as pure state transformers that also
  return the list of wire command bodies issued, in order.
-/

/- Constants from const.py. -/

def NUM_OUTPUTS : Int := 4

def CMD_OUTPUT : String := "c4.amp.out"

def CMD_DIGITAL : String := "c4.amp.digital"

def CMD_VOLUME : String := "c4.amp.chvol"

def CMD_BASS : String := "c4.amp.bass"

/-- Modelled from the spec: the canonical `const` module of the integration is
not among the sources (only an earlier revision lacking this constant is); the
spec fixes only that the NO_INPUT sentinel is a distinguished logical-input
value outside 1..6.  We model it as 0. -/
def NO_INPUT_SOURCE : Int := 0

/- Wire codecs. -/

/-- Python `f"{n:02d}"`: decimal rendering of an integer, zero-padded to a
total width of 2 (a negative sign counts toward the width, so `-6` renders as
`"-6"` and `-12` as `"-12"`). -/
def format02d (n : Int) : String :=
  if n < 0 then "-" ++ Nat.repr n.natAbs
  else if n < 10 then "0" ++ Nat.repr n.toNat
  else Nat.repr n.toNat

/-- Lowercase hexadecimal digits of a natural number, no prefix. -/
def natToHex (n : Nat) : String := String.mk (Nat.toDigits 16 n)

/-- Python `hex(n)[2:]`: for `n ≥ 0`, `hex` yields `"0x" ++ digits`, so the
slice is the bare lowercase digits; for `n < 0`, `hex` yields
`"-0x" ++ digits` and the slice is `"x" ++ digits`. -/
def pyHexSuffix (n : Int) : String :=
  if n < 0 then "x" ++ natToHex n.natAbs else natToHex n.natAbs

/-- Python `int()` applied to a (rational-model) float: truncation toward
zero. -/
def pyTrunc (q : ℚ) : Int := if 0 ≤ q then ⌊q⌋ else -⌊-q⌋

/-- Body of the channel-volume command built in
`Control4AmpCoordinator.async_set_volume`:
`f"{CMD_VOLUME} {output:02d} {volume_hex}"` with
`volume_hex = hex(int(float(volume) * 100) + 160)[2:]`. -/
def volume_command (output : Int) (volume : ℚ) : String :=
  CMD_VOLUME ++ " " ++ format02d output ++ " " ++
    pyHexSuffix (pyTrunc (volume * 100) + 160)

/-- The volume encoding formula as the specification words it:
`round(v*100) + 160`, rendered as lowercase hex without prefix. -/
def encodeVolumeSpec (v : ℚ) : String := pyHexSuffix (round (v * 100) + 160)

/- Coordinator: input topology and command builders. -/

inductive InputSource where
  | analog
  | digital
  deriving DecidableEq

/-- The fixed `_input_map` of `Control4AmpCoordinator`: logical input number
to (source kind, physical port). -/
def input_map (input_number : Int) : Option (InputSource × Int) :=
  if input_number = 1 then some (InputSource.analog, 1)
  else if input_number = 2 then some (InputSource.analog, 2)
  else if input_number = 3 then some (InputSource.analog, 3)
  else if input_number = 4 then some (InputSource.analog, 4)
  else if input_number = 5 then some (InputSource.digital, 1)
  else if input_number = 6 then some (InputSource.digital, 3)
  else none

/-- `Control4AmpCoordinator.async_select_input`, as the list of command bodies
it sends, or the error it logs before returning without sending. -/
def async_select_input (channel input_number : Int) :
    Except String (List String) :=
  if input_number = NO_INPUT_SOURCE then
    Except.ok [CMD_OUTPUT ++ " " ++ format02d channel ++ " 00"]
  else
    match input_map input_number with
    | none => Except.error "Invalid input number"
    | some (source_type, physical_number) =>
      Except.ok
        [CMD_OUTPUT ++ " " ++ format02d channel ++ " " ++
           format02d physical_number,
         CMD_DIGITAL ++ " " ++ format02d physical_number ++ " " ++
           format02d (if source_type = InputSource.digital then 1 else 0)]

/-- `Control4AmpCoordinator.async_set_volume`: validates the output index,
then sends one hex-encoded channel-volume command. -/
def async_set_volume (output : Int) (volume : ℚ) :
    Except String (List String) :=
  if 1 ≤ output ∧ output ≤ NUM_OUTPUTS then
    Except.ok [volume_command output volume]
  else
    Except.error "Invalid output number"

/-- `Control4AmpCoordinator.async_set_bass`: validates the output index and
the level range, then sends one bass command. -/
def async_set_bass (output level : Int) : Except String (List String) :=
  if 1 ≤ output ∧ output ≤ NUM_OUTPUTS then
    if -12 ≤ level ∧ level ≤ 12 then
      Except.ok [CMD_BASS ++ " " ++ format02d output ++ " " ++ format02d level]
    else
      Except.error "Invalid bass level"
  else
    Except.error "Invalid output number"

/- Transport response logic (deterministic-time model). -/

/-- Deterministic-time model of `asyncio.wait_for(asyncio.sleep(d), timeout)`:
the inner sleep finishes after `d` seconds, so `wait_for` completes normally
exactly when `d ≤ timeout`, and raises `TimeoutError` otherwise. -/
def wait_for_sleep_completes (d timeout : ℚ) : Bool := decide (d ≤ timeout)

/-- Response portion of `Control4AmpCoordinator.async_send_command` when
`expect_response` is true: it awaits `wait_for(sleep(0.1), timeout=1.0)`; on
normal completion it returns `self.protocol._latest_response` — the most
recently received datagram text ever, `none` if no datagram was ever
received; on `TimeoutError` it logs a warning and returns `none`. -/
def send_command_response (latest_response : Option String) : Option String :=
  if wait_for_sleep_completes (1/10) 1 then latest_response else none

/- Zone state machine (player_state.py). -/

inductive MediaPlayerState where
  | on
  | off
  deriving DecidableEq

/-- The `Control4ZoneState` dataclass.  `volume` is a non-optional float field
in the source (default 0.0), so it is a plain rational here. -/
structure Control4ZoneState where
  volume : ℚ
  input_source : Option Int
  is_muted : Bool
  pre_mute_volume : Option ℚ
  power_state : MediaPlayerState
  deriving DecidableEq

/-- Field defaults of the `Control4ZoneState` dataclass. -/
def Control4ZoneState.initial : Control4ZoneState :=
  ⟨0, none, false, none, MediaPlayerState.off⟩

/-- `Control4ZoneState.is_on`. -/
def Control4ZoneState.is_on (s : Control4ZoneState) : Bool :=
  match s.power_state with
  | MediaPlayerState.on => true
  | MediaPlayerState.off => false

/-- `Control4ZoneState.store_mute_state`: store the current volume before
muting (only when not already muted). -/
def Control4ZoneState.store_mute_state (s : Control4ZoneState) :
    Control4ZoneState :=
  if s.is_muted = false then { s with pre_mute_volume := some s.volume }
  else s

/-- `Control4ZoneState.restore_mute_state`: restore the volume stored before
muting, if any. -/
def Control4ZoneState.restore_mute_state (s : Control4ZoneState) :
    Control4ZoneState :=
  match s.pre_mute_volume with
  | some v => { s with volume := v }
  | none => s

/-- `Control4StateManager`: one current zone snapshot and at most one
previous snapshot. -/
structure Control4StateManager where
  current : Control4ZoneState
  previous : Option Control4ZoneState
  deriving DecidableEq

/-- Constructor state of `Control4StateManager`. -/
def Control4StateManager.initial : Control4StateManager :=
  ⟨Control4ZoneState.initial, none⟩

/-- `Control4StateManager.store_state`: snapshot current as previous. -/
def Control4StateManager.store_state (m : Control4StateManager) :
    Control4StateManager :=
  { m with previous := some m.current }

/-- `Control4StateManager.set_power`: on an actual transition, snapshot the
pre-transition current state, then flip the power flag. -/
def Control4StateManager.set_power (m : Control4StateManager) (is_on : Bool) :
    Control4StateManager :=
  if is_on = true ∧ m.current.is_on = false then
    { m.store_state with
        current := { m.current with power_state := MediaPlayerState.on } }
  else if is_on = false ∧ m.current.is_on = true then
    { m.store_state with
        current := { m.current with power_state := MediaPlayerState.off } }
  else m

/-- `Control4StateManager.set_mute`. -/
def Control4StateManager.set_mute (m : Control4StateManager)
    (is_muted : Bool) : Control4StateManager :=
  if is_muted = true ∧ m.current.is_muted = false then
    { m with current := { m.current.store_mute_state with is_muted := true } }
  else if is_muted = false ∧ m.current.is_muted = true then
    let unmuted := { m.current with is_muted := false }
    { m with current := unmuted.restore_mute_state }
  else m

/-- `Control4StateManager.set_volume`: set the volume; an explicit volume set
clears the mute flag. -/
def Control4StateManager.set_volume (m : Control4StateManager) (volume : ℚ) :
    Control4StateManager :=
  let m1 := { m with current := { m.current with volume := volume } }
  if m1.current.is_muted = true then
    { m1 with current := { m1.current with is_muted := false } }
  else m1

/-- `Control4StateManager.set_input_source`: direct assignment. -/
def Control4StateManager.set_input_source (m : Control4StateManager)
    (input_source : Option Int) : Control4StateManager :=
  { m with current := { m.current with input_source := input_source } }

/- Zone media player operations (media_player.py).  Each operation returns
the updated state manager together with the list of wire command bodies
issued, in order. -/

/-- Commands actually put on the wire by a coordinator call: a validation
failure is logged inside the coordinator and produces no wire traffic. -/
def sent : Except String (List String) → List String
  | Except.ok cmds => cmds
  | Except.error _ => []

/-- The `volume_level` read-only property of `Control4AmpMediaPlayer`. -/
def volume_level (m : Control4StateManager) : ℚ := m.current.volume

/-- `Control4AmpMediaPlayer.async_mute_volume`. -/
def async_mute_volume (output_id : Int) (m : Control4StateManager)
    (mute : Bool) : Control4StateManager × List String :=
  if mute ≠ m.current.is_muted then
    if mute = true then
      (m.set_mute true, sent (async_set_volume output_id 0))
    else
      let m1 := m.set_mute false
      let restore_volume := m1.current.volume
      (m1, sent (async_set_volume output_id
        (if restore_volume > 0 then restore_volume else 3/10)))
  else (m, [])

/-- `Control4AmpMediaPlayer.async_turn_off`. -/
def async_turn_off (output_id : Int) (m : Control4StateManager) :
    Control4StateManager × List String :=
  let m1 := m.set_power false
  let cmds := sent (async_select_input output_id NO_INPUT_SOURCE)
  (m1.set_input_source (some NO_INPUT_SOURCE), cmds)

/-- Else-branch of `Control4AmpMediaPlayer.async_turn_on`: no usable previous
snapshot; fall back to the first enabled input from the label table and, when
not muted, a default volume of 0.3.  The label table is the ordered
`_input_labels` association (input number, display label). -/
def async_turn_on_fallback (output_id : Int)
    (input_labels : List (Int × String)) (m : Control4StateManager) :
    Control4StateManager × List String :=
  match input_labels.head? with
  | some kv =>
    let cmds := sent (async_select_input output_id kv.1)
    let m1 := m.set_input_source (some kv.1)
    if m1.current.is_muted = false then
      let cmds2 := sent (async_set_volume output_id (3/10))
      ((m1.set_volume (3/10)).set_power true, cmds ++ cmds2)
    else
      (m1.set_power true, cmds)
  | none => (m.set_power true, [])

/-- `Control4AmpMediaPlayer.async_turn_on`.  The source guards the restore of
the previous volume with `previous_state.volume is not None`; `volume` is a
non-optional float field, so that guard is always true and is not modelled. -/
def async_turn_on (output_id : Int) (input_labels : List (Int × String))
    (m : Control4StateManager) : Control4StateManager × List String :=
  match m.previous with
  | none => async_turn_on_fallback output_id input_labels m
  | some previous_state =>
    match previous_state.input_source with
    | none => async_turn_on_fallback output_id input_labels m
    | some src =>
      let cmds := sent (async_select_input output_id src)
      let m1 := m.set_input_source (some src)
      if previous_state.is_muted = false then
        let cmds2 := sent (async_set_volume output_id previous_state.volume)
        ((m1.set_volume previous_state.volume).set_power true, cmds ++ cmds2)
      else
        let cmds2 := sent (async_set_volume output_id 0)
        ((m1.set_mute true).set_power true, cmds ++ cmds2)

/-- `Control4AmpMediaPlayer.async_select_source`: look the label up in the
ordered label table (first match wins, as in the Python for/break loop);
on a hit, send the input-select commands, record the input and power on;
on a miss, do nothing. -/
def async_select_source (output_id : Int)
    (input_labels : List (Int × String)) (m : Control4StateManager)
    (source : String) : Control4StateManager × List String :=
  match input_labels.find? (fun p => p.2 == source) with
  | some kv =>
    let cmds := sent (async_select_input output_id kv.1)
    ((m.set_input_source (some kv.1)).set_power true, cmds)
  | none => (m, [])

/- Helper lemmas shared by the claim theorems. -/

lemma pyTrunc_of_nonneg (q : ℚ) (h : 0 ≤ q) : pyTrunc q = ⌊q⌋ := if_pos h

lemma volume_command_eval (output : Int) (v : ℚ) (n : ℤ) (hv : 0 ≤ v)
    (hn : ⌊v * 100⌋ = n) :
    volume_command output v =
      CMD_VOLUME ++ " " ++ format02d output ++ " " ++ pyHexSuffix (n + 160) := by
  rw [volume_command, pyTrunc, if_pos (mul_nonneg hv (by norm_num)), hn]

lemma set_power_input_source (m : Control4StateManager) (b : Bool) :
    (m.set_power b).current.input_source = m.current.input_source := by
  rw [Control4StateManager.set_power]
  split
  · simp [Control4StateManager.store_state]
  · split
    · simp [Control4StateManager.store_state]
    · rfl

lemma set_power_true_power_state (m : Control4StateManager) :
    (m.set_power true).current.power_state = MediaPlayerState.on := by
  cases hp : m.current.power_state <;>
    simp [Control4StateManager.set_power, Control4ZoneState.is_on, hp,
      Control4StateManager.store_state]

/-- C1, counterexample: in the zone state muted with pre-mute volume 0.1,
unmuting issues a volume command carrying the restored volume 0.1, not the
claimed greater of the restored volume and the 0.3 floor (which would be
0.3) — the code applies the 0.3 floor only when the restored volume is not
positive. -/
theorem c1_unmute_counterexample :
    ¬ ((async_mute_volume 1
          ⟨⟨1/10, none, true, some (1/10), MediaPlayerState.on⟩, none⟩
          false).1.current.is_muted = false ∧
       (async_mute_volume 1
          ⟨⟨1/10, none, true, some (1/10), MediaPlayerState.on⟩, none⟩
          false).2 = [volume_command 1 (max (1/10) (3/10))]) := by
  have hres : (async_mute_volume 1
      ⟨⟨1/10, none, true, some (1/10), MediaPlayerState.on⟩, none⟩
      false).2 = [volume_command 1 (1/10)] := by
    norm_num [async_mute_volume, Control4StateManager.set_mute,
      Control4ZoneState.restore_mute_state, sent, async_set_volume, NUM_OUTPUTS]
  have hmax : max ((1:ℚ)/10) (3/10) = 3/10 := max_eq_right (by norm_num)
  have hL : volume_command 1 ((1:ℚ)/10) = "c4.amp.chvol 01 aa" := by
    rw [volume_command_eval 1 (1/10) 10 (by norm_num) (by norm_num)]
    decide
  have hR : volume_command 1 ((3:ℚ)/10) = "c4.amp.chvol 01 be" := by
    rw [volume_command_eval 1 (3/10) 30 (by norm_num) (by norm_num)]
    decide
  intro h
  obtain ⟨h1, h2⟩ := h
  rw [hres, hmax, hL, hR] at h2
  exact absurd (List.cons.injEq .. ▸ h2) (by decide)

/-- C1 (amended): for every zone muted with pre-mute volume p in [0,1] and a
valid output, unmuting sets the state to unmuted, restores the state volume
to p, and issues exactly one wire volume command whose value is p when p > 0
and the floor 0.3 only when the restored volume is not positive. -/
theorem c1_unmute_amended (output_id : Int) (m : Control4StateManager) (p : ℚ)
    (hmuted : m.current.is_muted = true)
    (hpre : m.current.pre_mute_volume = some p)
    (hp0 : 0 ≤ p) (hp1 : p ≤ 1)
    (ho : 1 ≤ output_id ∧ output_id ≤ NUM_OUTPUTS) :
    (async_mute_volume output_id m false).1.current.is_muted = false ∧
    (async_mute_volume output_id m false).1.current.volume = p ∧
    (async_mute_volume output_id m false).2 =
      [volume_command output_id (if p > 0 then p else 3/10)] := by
  simp [async_mute_volume, Control4StateManager.set_mute,
    Control4ZoneState.restore_mute_state, hmuted, hpre, sent,
    async_set_volume, ho]

/-- C1 witness: the amended theorem applied at output 1 and a zone muted with
pre-mute volume 1/2. -/
theorem c1_unmute_amended_witness :
    (async_mute_volume 1
        ⟨⟨1/2, none, true, some (1/2), MediaPlayerState.on⟩, none⟩
        false).1.current.is_muted = false ∧
    (async_mute_volume 1
        ⟨⟨1/2, none, true, some (1/2), MediaPlayerState.on⟩, none⟩
        false).1.current.volume = 1/2 ∧
    (async_mute_volume 1
        ⟨⟨1/2, none, true, some (1/2), MediaPlayerState.on⟩, none⟩
        false).2 = [volume_command 1 (if (1:ℚ)/2 > 0 then 1/2 else 3/10)] :=
  c1_unmute_amended 1 ⟨⟨1/2, none, true, some (1/2), MediaPlayerState.on⟩, none⟩
    (1/2) rfl rfl (by norm_num) (by norm_num) (by decide)

/-- C2, counterexample: at v = 3/500 (0.006) the emitted channel-volume
command carries hex(int(0.6) + 160) = "a0", while the claimed
round(v*100) + 160 renders as "a1" — the code truncates, it does not
round. -/
theorem c2_encode_counterexample :
    async_set_volume 1 (3/500) ≠
      Except.ok [CMD_VOLUME ++ " " ++ format02d 1 ++ " " ++
        encodeVolumeSpec (3/500)] := by
  have hL : async_set_volume 1 (3/500) =
      Except.ok [CMD_VOLUME ++ " " ++ format02d 1 ++ " " ++
        pyHexSuffix (0 + 160)] := by
    rw [async_set_volume, if_pos (by decide),
      volume_command_eval 1 (3/500) 0 (by norm_num) (by norm_num)]
  have hR : encodeVolumeSpec (3/500) = "a1" := by
    have h2 : round ((3:ℚ)/500 * 100) + 160 = 161 := by norm_num [round_eq]
    rw [encodeVolumeSpec, h2]
    decide
  have hne : CMD_VOLUME ++ " " ++ format02d 1 ++ " " ++ pyHexSuffix (0 + 160) ≠
      CMD_VOLUME ++ " " ++ format02d 1 ++ " " ++ "a1" := by decide
  rw [hL, hR]
  intro hEq
  simp only [Except.ok.injEq, List.cons.injEq, and_true] at hEq
  exact hne hEq

/-- C2 (amended): for every volume v in [0,1] and valid output, the value
argument of the emitted channel-volume command equals the truncation
⌊v*100⌋ + 160 (floor, since v is nonnegative), rendered as lowercase
hexadecimal without prefix. -/
theorem c2_encode_amended (output : Int) (v : ℚ) (h0 : 0 ≤ v) (h1 : v ≤ 1)
    (ho : 1 ≤ output ∧ output ≤ NUM_OUTPUTS) :
    async_set_volume output v =
      Except.ok [CMD_VOLUME ++ " " ++ format02d output ++ " " ++
        pyHexSuffix (⌊v * 100⌋ + 160)] := by
  rw [async_set_volume, if_pos ho, volume_command_eval output v ⌊v * 100⌋ h0 rfl]

/-- C2 witness: the amended theorem applied at output 1 and v = 1/2. -/
theorem c2_encode_amended_witness :
    async_set_volume 1 (1/2) =
      Except.ok [CMD_VOLUME ++ " " ++ format02d 1 ++ " " ++
        pyHexSuffix (⌊(1:ℚ)/2 * 100⌋ + 160)] :=
  c2_encode_amended 1 (1/2) (by norm_num) (by norm_num) (by decide)

/-- C3: evaluation of the send-and-await response logic at the failing
inputs.  The awaited `wait_for(sleep(0.1), timeout=1.0)` always completes
(0.1 ≤ 1.0), so the TimeoutError warning branch is unreachable; the call then
returns the most recently received datagram text ever — `none` when no
datagram was ever received (without any warning), and a stale datagram
received before the send even when nothing arrived within the wait
window — contradicting the claim that the result is the text of a datagram
received within the window and `none` exactly on an empty window. -/
theorem c3_send_response_behavior :
    wait_for_sleep_completes (1/10) 1 = true ∧
    send_command_response none = none ∧
    send_command_response (some "datagram received before this send") =
      some "datagram received before this send" := by
  have h : wait_for_sleep_completes (1/10) 1 = true := by
    rw [wait_for_sleep_completes, decide_eq_true_eq]
    norm_num
  refine ⟨h, ?_, ?_⟩ <;>
    (simp only [send_command_response]
     rw [h]
     simp)

/-- C4: for every output channel, selecting NO_INPUT sends exactly one
command setting the output to physical port 0; the topology table maps
logical 1,2,3,4 to analog ports 1,2,3,4, logical 5 to digital port 1 and
logical 6 to digital port 3; every logical input 1..6 resolves, and a
resolved input sends exactly two commands in order — set output to the
physical port, then set that port's digital flag; any other input is
reported as an error with no command sent. -/
theorem c4_select_input (channel input_number : Int) :
    (input_map 1 = some (InputSource.analog, 1) ∧
     input_map 2 = some (InputSource.analog, 2) ∧
     input_map 3 = some (InputSource.analog, 3) ∧
     input_map 4 = some (InputSource.analog, 4) ∧
     input_map 5 = some (InputSource.digital, 1) ∧
     input_map 6 = some (InputSource.digital, 3)) ∧
    (input_number = NO_INPUT_SOURCE →
      async_select_input channel input_number =
        Except.ok [CMD_OUTPUT ++ " " ++ format02d channel ++ " 00"]) ∧
    (1 ≤ input_number → input_number ≤ 6 → input_map input_number ≠ none) ∧
    (∀ source_type physical_number,
      input_map input_number = some (source_type, physical_number) →
      async_select_input channel input_number =
        Except.ok
          [CMD_OUTPUT ++ " " ++ format02d channel ++ " " ++
             format02d physical_number,
           CMD_DIGITAL ++ " " ++ format02d physical_number ++ " " ++
             format02d (if source_type = InputSource.digital then 1 else 0)]) ∧
    (input_number ≠ NO_INPUT_SOURCE → input_map input_number = none →
      async_select_input channel input_number =
        Except.error "Invalid input number") := by
  refine ⟨by decide, ?_, ?_, ?_, ?_⟩
  · intro h
    rw [async_select_input, if_pos h]
  · intro h1 h6
    have : input_number = 1 ∨ input_number = 2 ∨ input_number = 3 ∨
        input_number = 4 ∨ input_number = 5 ∨ input_number = 6 := by omega
    rcases this with rfl | rfl | rfl | rfl | rfl | rfl <;> decide
  · intro source_type physical_number hmap
    have hcases : input_number = 1 ∨ input_number = 2 ∨ input_number = 3 ∨
        input_number = 4 ∨ input_number = 5 ∨ input_number = 6 := by
      by_contra hc
      push_neg at hc
      obtain ⟨n1, n2, n3, n4, n5, n6⟩ := hc
      rw [input_map, if_neg n1, if_neg n2, if_neg n3, if_neg n4, if_neg n5,
        if_neg n6] at hmap
      exact Option.noConfusion hmap
    rcases hcases with rfl | rfl | rfl | rfl | rfl | rfl <;>
      (norm_num [input_map] at hmap
       obtain ⟨rfl, rfl⟩ := hmap
       norm_num [async_select_input, input_map, NO_INPUT_SOURCE])
  · intro hne hnone
    simp [async_select_input, hne, hnone]

/-- C4 witness: the theorem applied at the NO_INPUT sentinel, at logical
input 5 (digital, physical port 1) and at the invalid input 7. -/
theorem c4_select_input_witness :
    async_select_input 1 NO_INPUT_SOURCE =
      Except.ok [CMD_OUTPUT ++ " " ++ format02d 1 ++ " 00"] ∧
    async_select_input 2 5 =
      Except.ok
        [CMD_OUTPUT ++ " " ++ format02d 2 ++ " " ++ format02d 1,
         CMD_DIGITAL ++ " " ++ format02d 1 ++ " " ++
           format02d (if InputSource.digital = InputSource.digital then 1 else 0)] ∧
    async_select_input 1 7 = Except.error "Invalid input number" :=
  ⟨(c4_select_input 1 NO_INPUT_SOURCE).2.1 rfl,
   (c4_select_input 2 5).2.2.2.1 InputSource.digital 1 (by decide),
   (c4_select_input 1 7).2.2.2.2 (by decide) (by decide)⟩

/-- C5: starting from a zone with current state on, volume 0.6, input 2,
unmuted (any pre-mute residue and any prior snapshot), turning off and then
on again yields input source 2, power on and state volume 0.6, with the
turn-on wire traffic being the two input-select commands for logical input 2
followed by one volume command carrying 0.6. -/
theorem c5_power_cycle_restore (output_id : Int)
    (labels : List (Int × String)) (pm : Option ℚ)
    (prev : Option Control4ZoneState)
    (ho : 1 ≤ output_id ∧ output_id ≤ NUM_OUTPUTS) :
    (async_turn_on output_id labels
      (async_turn_off output_id
        ⟨⟨3/5, some 2, false, pm, MediaPlayerState.on⟩, prev⟩).1).1.current.input_source =
      some 2 ∧
    (async_turn_on output_id labels
      (async_turn_off output_id
        ⟨⟨3/5, some 2, false, pm, MediaPlayerState.on⟩, prev⟩).1).1.current.power_state =
      MediaPlayerState.on ∧
    (async_turn_on output_id labels
      (async_turn_off output_id
        ⟨⟨3/5, some 2, false, pm, MediaPlayerState.on⟩, prev⟩).1).1.current.volume = 3/5 ∧
    (async_turn_on output_id labels
      (async_turn_off output_id
        ⟨⟨3/5, some 2, false, pm, MediaPlayerState.on⟩, prev⟩).1).2 =
      [CMD_OUTPUT ++ " " ++ format02d output_id ++ " " ++ format02d 2,
       CMD_DIGITAL ++ " " ++ format02d 2 ++ " " ++ format02d 0,
       volume_command output_id (3/5)] := by
  simp [async_turn_off, async_turn_on, Control4StateManager.set_power,
    Control4StateManager.store_state, Control4StateManager.set_input_source,
    Control4StateManager.set_volume, Control4ZoneState.is_on,
    async_select_input, input_map, NO_INPUT_SOURCE, sent, async_set_volume, ho]

/-- C5 witness: the theorem applied at output 1 with an empty label table
and no pre-existing snapshot. -/
theorem c5_power_cycle_restore_witness :
    (async_turn_on 1 []
      (async_turn_off 1
        ⟨⟨3/5, some 2, false, none, MediaPlayerState.on⟩, none⟩).1).1.current.input_source =
      some 2 ∧
    (async_turn_on 1 []
      (async_turn_off 1
        ⟨⟨3/5, some 2, false, none, MediaPlayerState.on⟩, none⟩).1).1.current.power_state =
      MediaPlayerState.on ∧
    (async_turn_on 1 []
      (async_turn_off 1
        ⟨⟨3/5, some 2, false, none, MediaPlayerState.on⟩, none⟩).1).1.current.volume = 3/5 ∧
    (async_turn_on 1 []
      (async_turn_off 1
        ⟨⟨3/5, some 2, false, none, MediaPlayerState.on⟩, none⟩).1).2 =
      [CMD_OUTPUT ++ " " ++ format02d 1 ++ " " ++ format02d 2,
       CMD_DIGITAL ++ " " ++ format02d 2 ++ " " ++ format02d 0,
       volume_command 1 (3/5)] :=
  c5_power_cycle_restore 1 [] none none (by decide)

/-- C6, counterexample: a zone that is powered on and muted with pre-mute
volume 0.7 but has no input source recorded (reachable by muting before any
source was ever selected) stays muted across turnOff/turnOn, yet turnOn
takes the no-previous-input fallback path and sends no volume command at
all — the claimed volume command carrying 0 is never sent. -/
theorem c6_mute_power_cycle_counterexample :
    ¬ ((async_turn_on 1 []
          (async_turn_off 1
            ⟨⟨7/10, none, true, some (7/10), MediaPlayerState.on⟩, none⟩).1).1.current.is_muted =
        true ∧
       volume_command 1 0 ∈
        (async_turn_on 1 []
          (async_turn_off 1
            ⟨⟨7/10, none, true, some (7/10), MediaPlayerState.on⟩, none⟩).1).2) := by
  have h2 : (async_turn_on 1 []
      (async_turn_off 1
        ⟨⟨7/10, none, true, some (7/10), MediaPlayerState.on⟩, none⟩).1).2 = [] := by
    simp [async_turn_off, async_turn_on, async_turn_on_fallback,
      Control4StateManager.set_power, Control4StateManager.store_state,
      Control4StateManager.set_input_source, Control4ZoneState.is_on,
      async_select_input, NO_INPUT_SOURCE, sent]
  intro h
  obtain ⟨h1, hmem⟩ := h
  rw [h2] at hmem
  simp at hmem

/-- C6 (amended): for every powered-on muted zone with pre-mute volume 0.7
whose state has an input source recorded (any logical number, any current
volume, any prior snapshot) and a valid output, turnOff then turnOn leaves
the zone muted and the turn-on wire traffic is the input-select commands for
the recorded source followed by exactly one volume command carrying 0 (in
particular, none carrying 0.7). -/
theorem c6_mute_power_cycle_amended (output_id src : Int) (vol : ℚ)
    (labels : List (Int × String)) (prev : Option Control4ZoneState)
    (ho : 1 ≤ output_id ∧ output_id ≤ NUM_OUTPUTS) :
    (async_turn_on output_id labels
      (async_turn_off output_id
        ⟨⟨vol, some src, true, some (7/10), MediaPlayerState.on⟩, prev⟩).1).1.current.is_muted =
      true ∧
    (async_turn_on output_id labels
      (async_turn_off output_id
        ⟨⟨vol, some src, true, some (7/10), MediaPlayerState.on⟩, prev⟩).1).2 =
      sent (async_select_input output_id src) ++ [volume_command output_id 0] := by
  simp [async_turn_off, async_turn_on, Control4StateManager.set_power,
    Control4StateManager.store_state, Control4StateManager.set_input_source,
    Control4StateManager.set_mute, Control4ZoneState.is_on,
    NO_INPUT_SOURCE, sent, async_set_volume, ho]

/-- C6 witness: the amended theorem applied at output 1 with recorded input
source 2 and current volume 0.7. -/
theorem c6_mute_power_cycle_amended_witness :
    (async_turn_on 1 []
      (async_turn_off 1
        ⟨⟨7/10, some 2, true, some (7/10), MediaPlayerState.on⟩, none⟩).1).1.current.is_muted =
      true ∧
    (async_turn_on 1 []
      (async_turn_off 1
        ⟨⟨7/10, some 2, true, some (7/10), MediaPlayerState.on⟩, none⟩).1).2 =
      sent (async_select_input 1 2) ++ [volume_command 1 0] :=
  c6_mute_power_cycle_amended 1 2 (7/10) [] none (by decide)

/-- C7: for every bass level outside [-12,12] the operation on output 1
reports the validation error with no command sent; for every level inside
the range it sends exactly one bass command; level 12 is encoded as the
two-character string "12". -/
theorem c7_bass_range (level : Int) :
    (¬ (-12 ≤ level ∧ level ≤ 12) →
      async_set_bass 1 level = Except.error "Invalid bass level") ∧
    ((-12 ≤ level ∧ level ≤ 12) →
      async_set_bass 1 level =
        Except.ok [CMD_BASS ++ " " ++ format02d 1 ++ " " ++ format02d level]) ∧
    format02d 12 = "12" := by
  refine ⟨?_, ?_, by decide⟩
  · intro h
    rw [async_set_bass, if_pos (by decide), if_neg h]
  · intro h
    rw [async_set_bass, if_pos (by decide), if_pos h]

/-- C7 witness: the theorem applied at levels 13 (rejected) and 12 (one
command). -/
theorem c7_bass_range_witness :
    async_set_bass 1 13 = Except.error "Invalid bass level" ∧
    async_set_bass 1 12 =
      Except.ok [CMD_BASS ++ " " ++ format02d 1 ++ " " ++ format02d 12] :=
  ⟨(c7_bass_range 13).1 (by decide), (c7_bass_range 12).2.1 (by decide)⟩

/-- C9: muting an unmuted zone stores the current volume into
pre_mute_volume, leaves the volume field unchanged (so the read-only
volume_level accessor still reports the pre-mute volume), sets the mute
flag, and drives the wire volume to 0 with exactly one command. -/
theorem c9_mute_frame (output_id : Int) (m : Control4StateManager)
    (hunmuted : m.current.is_muted = false)
    (ho : 1 ≤ output_id ∧ output_id ≤ NUM_OUTPUTS) :
    (async_mute_volume output_id m true).1.current.pre_mute_volume =
      some m.current.volume ∧
    (async_mute_volume output_id m true).1.current.volume = m.current.volume ∧
    (async_mute_volume output_id m true).1.current.is_muted = true ∧
    volume_level (async_mute_volume output_id m true).1 = m.current.volume ∧
    (async_mute_volume output_id m true).2 = [volume_command output_id 0] := by
  simp [async_mute_volume, Control4StateManager.set_mute,
    Control4ZoneState.store_mute_state, hunmuted, volume_level, sent,
    async_set_volume, ho]

/-- C9 witness: the theorem applied at output 1 and the constructor
state. -/
theorem c9_mute_frame_witness :
    (async_mute_volume 1 Control4StateManager.initial true).1.current.pre_mute_volume =
      some Control4StateManager.initial.current.volume ∧
    (async_mute_volume 1 Control4StateManager.initial true).1.current.volume =
      Control4StateManager.initial.current.volume ∧
    (async_mute_volume 1 Control4StateManager.initial true).1.current.is_muted = true ∧
    volume_level (async_mute_volume 1 Control4StateManager.initial true).1 =
      Control4StateManager.initial.current.volume ∧
    (async_mute_volume 1 Control4StateManager.initial true).2 =
      [volume_command 1 0] :=
  c9_mute_frame 1 Control4StateManager.initial rfl (by decide)

/-- C10: for every zone state and every label resolving through the enabled
label table to a logical input n in 1..6 (the range the table is built
over), selectSource sends the two input-select commands for n, records n as
the input source and leaves the power state on — powering a previously-off
zone on as a side effect; a label not in the table sends nothing and
changes no state. -/
theorem c10_select_source (output_id : Int) (labels : List (Int × String))
    (source : String) (m : Control4StateManager) :
    (∀ n lbl, labels.find? (fun p => p.2 == source) = some (n, lbl) →
      1 ≤ n → n ≤ 6 →
      ∃ source_type physical_number,
        input_map n = some (source_type, physical_number) ∧
        (async_select_source output_id labels m source).1.current.input_source =
          some n ∧
        (async_select_source output_id labels m source).1.current.power_state =
          MediaPlayerState.on ∧
        (async_select_source output_id labels m source).2 =
          [CMD_OUTPUT ++ " " ++ format02d output_id ++ " " ++
             format02d physical_number,
           CMD_DIGITAL ++ " " ++ format02d physical_number ++ " " ++
             format02d (if source_type = InputSource.digital then 1 else 0)]) ∧
    (labels.find? (fun p => p.2 == source) = none →
      async_select_source output_id labels m source = (m, [])) := by
  constructor
  · intro n lbl hfind h1 h6
    have hsel : async_select_source output_id labels m source =
        ((m.set_input_source (some n)).set_power true,
         sent (async_select_input output_id n)) := by
      rw [async_select_source, hfind]
    have hcases : n = 1 ∨ n = 2 ∨ n = 3 ∨ n = 4 ∨ n = 5 ∨ n = 6 := by omega
    rcases hcases with rfl | rfl | rfl | rfl | rfl | rfl <;>
      refine ⟨_, _, rfl, ?_, ?_, ?_⟩ <;> rw [hsel] <;>
        simp [Control4StateManager.set_input_source, set_power_input_source,
          set_power_true_power_state, sent, async_select_input, input_map,
          NO_INPUT_SOURCE]
  · intro hnone
    rw [async_select_source, hnone]

/-- C10 witness: the theorem applied to the table [(2, "CD")] with label
"CD" on the constructor (powered-off) state, and to the empty table. -/
theorem c10_select_source_witness :
    (∃ source_type physical_number,
      input_map 2 = some (source_type, physical_number) ∧
      (async_select_source 1 [(2, "CD")] Control4StateManager.initial
        "CD").1.current.input_source = some 2 ∧
      (async_select_source 1 [(2, "CD")] Control4StateManager.initial
        "CD").1.current.power_state = MediaPlayerState.on ∧
      (async_select_source 1 [(2, "CD")] Control4StateManager.initial "CD").2 =
        [CMD_OUTPUT ++ " " ++ format02d 1 ++ " " ++ format02d physical_number,
         CMD_DIGITAL ++ " " ++ format02d physical_number ++ " " ++
           format02d (if source_type = InputSource.digital then 1 else 0)]) ∧
    async_select_source 1 [] Control4StateManager.initial "CD" =
      (Control4StateManager.initial, []) :=
  ⟨(c10_select_source 1 [(2, "CD")] "CD" Control4StateManager.initial).1 2 "CD"
      rfl (by decide) (by decide),
   (c10_select_source 1 [] "CD" Control4StateManager.initial).2 rfl⟩
